import Mathlib

/-!
Verification of the tabular reshaping/aggregation pipeline and source cache of
the Dashsee sales dashboard (src/app.py).

The embedding models a pandas DataFrame cell as either a number (`Cell.num`,
integers, which cover every value the claims exercise), a piece of
non-numeric text (`Cell.str`), or a missing value (`Cell.nan`).  A row is a
function from column names to cells; a `RawTable` carries its column schema
explicitly, since pandas raises `KeyError` when an absent column is accessed.

pandas semantics embedded here, matching src/app.py:
- column access / `melt` id_vars + value_vars raise `KeyError` on absent
  columns (`requireCols`);
- `melt` stacks one block per value column, each block one long row per
  record (`melt`);
- `groupby(keys)[col].sum()` drops groups whose key contains a missing value
  (pandas default dropna=True), skips NaN cells inside a group, sums numeric
  cells, concatenates an all-text group, and raises `TypeError` on a group
  mixing numbers and text (`sumCells`, `groupSum`);
- `pd.to_numeric(col, errors=coerce)` turns non-numeric text into NaN
  (`coerceCell`; `Cell.str` stands for text with no numeric reading, which is
  the only string case the claims concern);
- `Series.abs()` maps NaN to NaN (`absCell`);
- `st.cache_data(ttl=300)` memoizes the decorated function keyed by its
  arguments, storing whatever value it returns -- including the
  `(None, error)` pair src/app.py returns on failure -- and lazily re-running
  the function once `now - timestamp < ttl` no longer holds (`get_or_fetch`).
-/

namespace Dashsee

/-- One pandas cell: a number, non-numeric text, or a missing value (NaN). -/
inductive Cell where
  | num (v : Int)
  | str (s : String)
  | nan
  deriving DecidableEq, Repr

/-- A row of a DataFrame: a function from column names to cells. -/
abbrev Row := String → Cell

/-- A DataFrame: explicit column schema plus its rows. -/
structure RawTable where
  cols : List String
  rows : List Row

/-- The canonical month columns, `all_months` in src/app.py line 197. -/
def all_months : List String :=
  ["Jan", "Feb", "Mar", "Apr", "May", "Jun", "Jul", "Aug", "Sep", "Oct", "Nov", "Dec"]

/-- The full expected schema of the template (src/app.py lines 58-75). -/
def std_cols : List String :=
  ["Scenario", "Year", "Account", "business_unit"] ++ all_months

/-- Whether the DataFrame has a column of this name. -/
def RawTable.hasCol (t : RawTable) (c : String) : Bool := t.cols.contains c

/-- pandas `series == n` for an integer literal: text and NaN compare false. -/
def cellEqInt : Cell → Int → Bool
  | .num v, n => v == n
  | _, _ => false

/-- pandas `series == s` for a string literal: numbers and NaN compare false. -/
def cellEqStr : Cell → String → Bool
  | .str x, s => x == s
  | _, _ => false

def isNumCell : Cell → Bool
  | .num _ => true
  | _ => false

def isStrCell : Cell → Bool
  | .str _ => true
  | _ => false

def isNanCell : Cell → Bool
  | .nan => true
  | _ => false

/-- Numeric reading of a cell; text and NaN read as 0 (used only in
specification-side sums, never inside the embedded pipeline). -/
def cellToInt : Cell → Int
  | .num v => v
  | _ => 0

def cellToStr : Cell → String
  | .str s => s
  | _ => ""

/-- `KeyError` gate: pandas column selection / melt raises on a missing
column, naming the missing labels. -/
def requireCols (t : RawTable) (cs : List String) : Except String Unit :=
  if cs.all t.hasCol then .ok ()
  else .error ("KeyError: " ++ String.intercalate ", " (cs.filter (fun c => !(t.hasCol c))))

/-- One long-format row produced by `DataFrame.melt`: the carried id-column
cells (in id_vars order), the month name, and the cell value. -/
structure LongRow where
  ids : List Cell
  month : String
  value : Cell
  deriving DecidableEq, Repr

/-- `DataFrame.melt(id_vars, value_vars)`: one block per value column, each
block one long row per record, blocks stacked in value_vars order. -/
def melt (rows : List Row) (idCols : List String) (valueCols : List String) : List LongRow :=
  match valueCols with
  | [] => []
  | m :: ms =>
      rows.map (fun r => { ids := idCols.map r, month := m, value := r m }) ++ melt rows idCols ms

/-- pandas sum of one group of object-dtype cells: NaN is skipped, an
all-numeric remainder sums (empty sums to 0), an all-text remainder
concatenates, and mixing numbers with text raises `TypeError`. -/
def sumCells (l : List Cell) : Except String Cell :=
  if (l.filter (fun c => !(isNanCell c))).all isNumCell then
    .ok (.num (((l.filter (fun c => !(isNanCell c))).map cellToInt).sum))
  else if (l.filter (fun c => !(isNanCell c))).all isStrCell then
    .ok (.str (String.join ((l.filter (fun c => !(isNanCell c))).map cellToStr)))
  else .error "TypeError: unsupported operand type for +"

/-- The cells of the group with key `k` (melt order preserved). -/
def groupVals (l : List LongRow) (k : List Cell) : List Cell :=
  (l.filter (fun r => decide (r.ids = k))).map LongRow.value

/-- The group keys of `groupby`: distinct id tuples, with keys containing a
missing value dropped (pandas groupby default dropna=True). -/
def groupKeys (l : List LongRow) : List (List Cell) :=
  ((l.map LongRow.ids).dedup).filter (fun k => !(k.any isNanCell))

def groupSumAux (l : List LongRow) : List (List Cell) → Except String (List (List Cell × Cell))
  | [] => .ok []
  | k :: ks =>
      match sumCells (groupVals l k), groupSumAux l ks with
      | .ok s, .ok rest => .ok ((k, s) :: rest)
      | .error e, _ => .error e
      | .ok _, .error e => .error e

/-- `groupby(keys)[value].sum().reset_index()`: one output row per surviving
group key, carrying the summed value.  (pandas additionally sorts the group
keys; no claim depends on output row order.) -/
def groupSum (l : List LongRow) : Except String (List (List Cell × Cell)) :=
  groupSumAux l (groupKeys l)

/-- Filter of `process_sales_data_by_unit` (src/app.py line 228):
Year == 2023 and Account == Sales. -/
def sbu_filter (t : RawTable) : List Row :=
  t.rows.filter (fun r => cellEqInt (r "Year") 2023 && cellEqStr (r "Account") "Sales")

/-- Body of `process_sales_data_by_unit` before its blanket `except`
(src/app.py lines 226-242): filter, melt over all twelve months with
id_vars Scenario and business_unit, then group-sum. -/
def sbu_core (t : RawTable) : Except String (List (List Cell × Cell)) :=
  match requireCols t ["Year", "Account"] with
  | .error e => .error e
  | .ok _ =>
      match requireCols t (["Scenario", "business_unit"] ++ all_months) with
      | .error e => .error e
      | .ok _ => groupSum (melt (sbu_filter t) ["Scenario", "business_unit"] all_months)

/-- `process_sales_data_by_unit` (src/app.py lines 224-245): any exception is
caught and an empty DataFrame returned. -/
def process_sales_data_by_unit (t : RawTable) : List (List Cell × Cell) :=
  match sbu_core t with
  | .ok r => r
  | .error _ => []

/-- Filter of `process_monthly_sales_data` (src/app.py lines 251-255). -/
def monthly_filter (t : RawTable) : List Row :=
  t.rows.filter (fun r =>
    cellEqInt (r "Year") 2023 && cellEqStr (r "Account") "Sales"
      && cellEqStr (r "business_unit") "Software")

/-- Body of `process_monthly_sales_data` before its blanket `except`
(src/app.py lines 249-265): filter, melt over all twelve months with
id_vars Scenario, no aggregation. -/
def monthly_core (t : RawTable) : Except String (List LongRow) :=
  match requireCols t ["Year", "Account", "business_unit"] with
  | .error e => .error e
  | .ok _ =>
      match requireCols t ("Scenario" :: all_months) with
      | .error e => .error e
      | .ok _ => .ok (melt (monthly_filter t) ["Scenario"] all_months)

/-- `process_monthly_sales_data` (src/app.py lines 247-268). -/
def process_monthly_sales_data (t : RawTable) : List LongRow :=
  match monthly_core t with
  | .ok r => r
  | .error _ => []

/-- `pd.to_numeric(col, errors=coerce)`: numbers stay, non-numeric text
becomes NaN, NaN stays NaN. -/
def coerceCell : Cell → Cell
  | .num v => .num v
  | _ => .nan

/-- `Series.abs()`: absolute value of numbers; NaN stays NaN. -/
def absCell : Cell → Cell
  | .num v => .num (abs v)
  | c => c

/-- Filter of `process_yearly_account_data` (src/app.py line 274):
Scenario == Actuals and Account != Sales. -/
def yearly_filter (t : RawTable) : List Row :=
  t.rows.filter (fun r =>
    cellEqStr (r "Scenario") "Actuals" && !(cellEqStr (r "Account") "Sales"))

/-- `month_cols` of src/app.py line 277: the canonical months actually
present in the table. -/
def month_cols (t : RawTable) : List String := all_months.filter t.hasCol

/-- The per-column update loop of src/app.py lines 278-279: every present
month column is coerced to numeric and replaced by its absolute value. -/
def yearly_transform (t : RawTable) (r : Row) : Row :=
  fun c => if c ∈ month_cols t then absCell (coerceCell (r c)) else r c

/-- Body of `process_yearly_account_data` before its blanket `except`
(src/app.py lines 272-292): filter, coerce+abs the present month columns,
melt over just those columns with id_vars Account and Year, group-sum. -/
def yearly_core (t : RawTable) : Except String (List (List Cell × Cell)) :=
  match requireCols t ["Scenario", "Account"] with
  | .error e => .error e
  | .ok _ =>
      match requireCols t ["Account", "Year"] with
      | .error e => .error e
      | .ok _ =>
          groupSum (melt ((yearly_filter t).map (yearly_transform t))
            ["Account", "Year"] (month_cols t))

/-- `process_yearly_account_data` (src/app.py lines 270-295). -/
def process_yearly_account_data (t : RawTable) : List (List Cell × Cell) :=
  match yearly_core t with
  | .ok r => r
  | .error _ => []

/-- Per-column sums of `df[cols]`, left to right; a column mixing numbers and
text raises. -/
def colSums (rows : List Row) : List String → Except String (List Cell)
  | [] => .ok []
  | c :: cs =>
      match sumCells (rows.map (fun r => r c)), colSums rows cs with
      | .ok s, .ok rest => .ok (s :: rest)
      | .error e, _ => .error e
      | .ok _, .error e => .error e

/-- `df[cols].sum().sum()`: sum each column, then sum the column totals. -/
def dfSumAll (rows : List Row) (cs : List String) : Except String Cell :=
  match colSums rows cs with
  | .ok l => sumCells l
  | .error e => .error e

/-- Python `abs` applied to the grand total: numbers take their absolute
value, text raises `TypeError`.  `sumCells` never returns NaN (its branches
produce only `num` and `str`), so the NaN case is unreachable. -/
def cellAbs : Cell → Except String Int
  | .num v => .ok (abs v)
  | .str _ => .error "TypeError: bad operand type for abs"
  | .nan => .ok 0

/-- The five-field metrics record built by `calculate_metrics`. -/
structure MetricsBundle where
  accounts_receivable : Int
  accounts_payable : Int
  equity_ratio : ℚ
  debt_equity : ℚ
  current_ratio : ℚ
  deriving DecidableEq, Repr

/-- The all-zero bundle returned by the `except` branch of
`calculate_metrics` (src/app.py lines 500-506). -/
def zeroBundle : MetricsBundle :=
  { accounts_receivable := 0, accounts_payable := 0
    equity_ratio := 0, debt_equity := 0, current_ratio := 0 }

/-- Body of `calculate_metrics` before its blanket `except` (src/app.py
lines 479-497): both selections need the Account column and all twelve month
columns; the three ratio fields are hard-coded literals. -/
def metrics_core (t : RawTable) : Except String MetricsBundle :=
  match requireCols t ("Account" :: all_months) with
  | .error e => .error e
  | .ok _ =>
      match dfSumAll (t.rows.filter (fun r => cellEqStr (r "Account") "Sales")) all_months with
      | .error e => .error e
      | .ok arCell =>
          match dfSumAll (t.rows.filter (fun r =>
              cellEqStr (r "Account") "Marketing" || cellEqStr (r "Account") "Operations"))
              all_months with
          | .error e => .error e
          | .ok apCell =>
              match cellAbs arCell, cellAbs apCell with
              | .ok ar, .ok ap =>
                  .ok { accounts_receivable := ar, accounts_payable := ap
                        equity_ratio := 75.38, debt_equity := 1.10, current_ratio := 1.86 }
              | .error e, _ => .error e
              | .ok _, .error e => .error e

/-- `calculate_metrics` (src/app.py lines 477-506): on any exception the
error text is reported via st.error and the zero bundle returned. -/
def calculate_metrics (t : RawTable) : MetricsBundle × Option String :=
  match metrics_core t with
  | .ok b => (b, none)
  | .error e => (zeroBundle, some e)

/-- One entry of the st.cache_data store: the memoized return value and the
time it was computed. -/
structure CacheEntry (α : Type) where
  value : α
  timestamp : Nat

/-- The st.cache_data store for one decorated function, keyed by the call
arguments. -/
abbrev Cache (κ α : Type) := List (κ × CacheEntry α)

def cacheLookup [DecidableEq κ] : Cache κ α → κ → Option (CacheEntry α)
  | [], _ => none
  | (k0, e) :: rest, k => if k0 = k then some e else cacheLookup rest k

def cacheInsert [DecidableEq κ] (c : Cache κ α) (k : κ) (e : CacheEntry α) : Cache κ α :=
  (k, e) :: c.filter (fun p => !(decide (p.1 = k)))

/-- st.cache_data call semantics: a stored entry younger than the TTL is
returned as-is; otherwise the decorated function runs and its return value
-- whatever it is -- is stored under the key and returned. -/
def get_or_fetch [DecidableEq κ] (c : Cache κ α) (k : κ) (fetch : Unit → α)
    (now ttl : Nat) : α × Cache κ α :=
  match cacheLookup c k with
  | some e =>
      if now - e.timestamp < ttl then (e.value, c)
      else
        let v := fetch ()
        (v, cacheInsert c k { value := v, timestamp := now })
  | none =>
      let v := fetch ()
      (v, cacheInsert c k { value := v, timestamp := now })

/-- The value `load_google_sheets_data` produces per call: the body returns
either a DataFrame or -- its `except` branch -- an error string, never
raising (src/app.py lines 104-137). -/
abbrev FetchResult := Except String RawTable

/-- `load_google_sheets_data` as called through its `st.cache_data(ttl=300)`
decorator (src/app.py lines 101-137): keyed by the credential text and sheet
URL; the body (credential parsing, URL parsing, network fetch) is abstracted
as `fetch`, whose result the body's try/except always returns as a value. -/
def load_google_sheets_data (c : Cache (String × String) FetchResult)
    (json_credentials sheets_url : String) (fetch : Unit → FetchResult) (now : Nat) :
    FetchResult × Cache (String × String) FetchResult :=
  get_or_fetch c (json_credentials, sheets_url) fetch now 300

/-- Convenience constructor for a template-shaped row: the four id columns,
explicit month cells, absent months defaulting to the number 0, anything
else missing. -/
def mkRow (scenario : String) (year : Int) (account bu : String)
    (ms : List (String × Cell)) : Row :=
  fun c =>
    if c = "Scenario" then .str scenario
    else if c = "Year" then .num year
    else if c = "Account" then .str account
    else if c = "business_unit" then .str bu
    else if all_months.contains c then (ms.lookup c).getD (.num 0)
    else .nan

/-- A row shaped like the template: text scenario, numeric year, text
account and business unit, numeric month cells. -/
def wfRow (r : Row) : Bool :=
  isStrCell (r "Scenario") && isNumCell (r "Year") && isStrCell (r "Account")
    && isStrCell (r "business_unit") && all_months.all (fun m => isNumCell (r m))

/-- A raw table of the shape the data model describes: the full template
schema is present and every record carries proper id values and numeric
month cells. -/
def WellFormed (t : RawTable) : Bool := std_cols.all t.hasCol && t.rows.all wfRow

/-- Total of the summed sales column over the rows of an aggregated view. -/
def salesTotal (out : List (List Cell × Cell)) : Int :=
  (out.map (fun p => cellToInt p.2)).sum

/-- Sum of all month cells over a set of records. -/
def rawMonthTotal (rows : List Row) : Int :=
  (rows.map (fun r => (all_months.map (fun m => cellToInt (r m))).sum)).sum

/-- Sum of the absolute values of all month cells over a set of records. -/
def rawAbsMonthTotal (rows : List Row) : Int :=
  (rows.map (fun r => (all_months.map (fun m => abs (cellToInt (r m)))).sum)).sum

def isOkE : Except ε α → Bool
  | .ok _ => true
  | .error _ => false

/-- Replace every non-numeric canonical month cell of a record by the
number 0 (id columns untouched). -/
def zRow (r : Row) : Row :=
  fun c => if c ∈ all_months ∧ isNumCell (r c) = false then .num 0 else r c

/-- The table with every non-numeric month cell replaced by the number 0. -/
def zeroNonNum (t : RawTable) : RawTable := ⟨t.cols, t.rows.map zRow⟩

/-! ### Concrete tables used by the claim scenarios -/

/-- The one-record table of the concrete scenario: Budget 2023 Sales
Software, Jan 150000, Feb 155000, every other month 0. -/
def rowC1 : Row := mkRow "Budget" 2023 "Sales" "Software"
  [("Jan", .num 150000), ("Feb", .num 155000)]

def tC1 : RawTable := ⟨std_cols, [rowC1]⟩

/-- Like `rowC1` but with a non-numeric January cell. -/
def rowC3 : Row := mkRow "Budget" 2023 "Sales" "Software"
  [("Jan", .str "N/A"), ("Feb", .num 155000)]

def tC3 : RawTable := ⟨std_cols, [rowC3]⟩

/-- An Actuals record with a negative month cell. -/
def rowC7 : Row := mkRow "Actuals" 2023 "Marketing" "Software"
  [("Jan", .num (-10)), ("Feb", .num 20)]

def tC7 : RawTable := ⟨std_cols, [rowC7]⟩

/-- A two-record well-formed table exercising both aggregating views. -/
def tMix : RawTable := ⟨std_cols, [rowC1, rowC7]⟩

/-- A table lacking the required business_unit column but carrying Actuals
data the yearly view can aggregate. -/
def tC8 : RawTable :=
  ⟨["Scenario", "Year", "Account"] ++ all_months,
    [mkRow "Actuals" 2023 "Marketing" "X" [("Jan", .num 100), ("Feb", .num 20)]]⟩

/-- A near-empty table whose only column is Scenario. -/
def tOneCol : RawTable := ⟨["Scenario"], []⟩

/-- A table whose December column is absent (eleven month columns). -/
def tNoDec : RawTable :=
  ⟨["Scenario", "Year", "Account", "business_unit"]
      ++ (all_months.filter (fun m => !(m == "Dec"))),
    [mkRow "Actuals" 2023 "Marketing" "Software" [("Jan", .num (-5))]]⟩

/-- The empty DataFrame. -/
def emptyTable : RawTable := ⟨[], []⟩

/-! ### Small computation lemmas for cells -/

@[simp] lemma isNanCell_num (v : Int) : isNanCell (.num v) = false := rfl

@[simp] lemma isNanCell_str (s : String) : isNanCell (.str s) = false := rfl

@[simp] lemma isNanCell_nan : isNanCell .nan = true := rfl

@[simp] lemma isNumCell_num (v : Int) : isNumCell (.num v) = true := rfl

@[simp] lemma isNumCell_str (s : String) : isNumCell (.str s) = false := rfl

@[simp] lemma isNumCell_nan : isNumCell .nan = false := rfl

@[simp] lemma isStrCell_num (v : Int) : isStrCell (.num v) = false := rfl

@[simp] lemma isStrCell_str (s : String) : isStrCell (.str s) = true := rfl

@[simp] lemma isStrCell_nan : isStrCell .nan = false := rfl

@[simp] lemma cellToInt_num (v : Int) : cellToInt (.num v) = v := rfl

@[simp] lemma cellToInt_str (s : String) : cellToInt (.str s) = 0 := rfl

@[simp] lemma cellToInt_nan : cellToInt .nan = 0 := rfl

/-! ### List arithmetic helpers -/

lemma sum_map_add {α : Type} (l : List α) (f g : α → Int) :
    (l.map (fun a => f a + g a)).sum = (l.map f).sum + (l.map g).sum := by
  induction l with
  | nil => simp
  | cons a l ih => simp [ih]; ring

lemma filter_sum_split {α : Type} (l : List α) (p : α → Bool) (v : α → Int) :
    ((l.filter p).map v).sum + ((l.filter (fun a => !(p a))).map v).sum = (l.map v).sum := by
  induction l with
  | nil => simp
  | cons a l ih =>
    cases h : p a
    · simp [List.filter_cons, h]
      omega
    · simp [List.filter_cons, h]
      omega

lemma sum_swap {α β : Type} (ms : List α) (rs : List β) (f : α → β → Int) :
    (ms.map (fun m => (rs.map (f m)).sum)).sum
      = (rs.map (fun r => (ms.map (fun m => f m r)).sum)).sum := by
  induction ms with
  | nil => simp
  | cons m ms ih =>
    simp only [List.map_cons, List.sum_cons, ih, sum_map_add]

lemma filter_comm_of_imp {α : Type} (l : List α) (p q : α → Bool)
    (h : ∀ a, q a = true → p a = true) :
    (l.filter p).filter q = l.filter q := by
  induction l with
  | nil => rfl
  | cons a l ih =>
    cases hq : q a with
    | true =>
      have hp := h a hq
      simp [List.filter_cons, hp, hq, ih]
    | false =>
      cases hp : p a <;> simp [List.filter_cons, hp, hq, ih]

lemma filter_map_comm {α β : Type} (l : List α) (f : α → β) (p : β → Bool) :
    (l.map f).filter p = (l.filter (fun a => p (f a))).map f := by
  induction l with
  | nil => rfl
  | cons a l ih =>
    cases h : p (f a) <;> simp [List.filter_cons, h, ih]

/-- Summing a pairwise-disjoint covering family of filter classes reproduces
the total sum. -/
lemma sum_over_keys (keys : List (List Cell)) (l : List LongRow) (hnd : keys.Nodup)
    (hcov : ∀ r ∈ l, r.ids ∈ keys) :
    (keys.map (fun k =>
        ((l.filter (fun r => decide (r.ids = k))).map (fun r => cellToInt r.value)).sum)).sum
      = (l.map (fun r => cellToInt r.value)).sum := by
  induction keys generalizing l with
  | nil =>
    cases l with
    | nil => simp
    | cons r l => exact absurd (hcov r (by simp)) (by simp)
  | cons k ks ih =>
    rw [List.nodup_cons] at hnd
    obtain ⟨hk, hks⟩ := hnd
    have hcov' : ∀ r ∈ l.filter (fun r => !(decide (r.ids = k))), r.ids ∈ ks := by
      intro r hr
      rw [List.mem_filter] at hr
      obtain ⟨hrl, hneq⟩ := hr
      simp only [Bool.not_eq_true', decide_eq_false_iff_not] at hneq
      rcases List.mem_cons.mp (hcov r hrl) with h1 | h1
      · exact absurd h1 hneq
      · exact h1
    have hih := ih (l.filter (fun r => !(decide (r.ids = k)))) hks hcov'
    have hterm : ∀ k' ∈ ks,
        (l.filter (fun r => !(decide (r.ids = k)))).filter (fun r => decide (r.ids = k'))
          = l.filter (fun r => decide (r.ids = k')) := by
      intro k' hk'
      apply filter_comm_of_imp
      intro r hr
      simp only [decide_eq_true_eq] at hr
      simp only [Bool.not_eq_true', decide_eq_false_iff_not]
      rw [hr]
      intro hc
      exact hk (hc ▸ hk')
    calc (((k :: ks)).map (fun k0 =>
            ((l.filter (fun r => decide (r.ids = k0))).map (fun r => cellToInt r.value)).sum)).sum
        = ((l.filter (fun r => decide (r.ids = k))).map (fun r => cellToInt r.value)).sum
            + (ks.map (fun k0 =>
                ((l.filter (fun r => decide (r.ids = k0))).map
                  (fun r => cellToInt r.value)).sum)).sum := by
          simp
      _ = ((l.filter (fun r => decide (r.ids = k))).map (fun r => cellToInt r.value)).sum
            + (ks.map (fun k0 =>
                (((l.filter (fun r => !(decide (r.ids = k)))).filter
                    (fun r => decide (r.ids = k0))).map (fun r => cellToInt r.value)).sum)).sum := by
          have hmap := List.map_congr_left (l := ks)
            (f := fun k0 =>
              ((l.filter (fun r => decide (r.ids = k0))).map (fun r => cellToInt r.value)).sum)
            (g := fun k0 =>
              (((l.filter (fun r => !(decide (r.ids = k)))).filter
                  (fun r => decide (r.ids = k0))).map (fun r => cellToInt r.value)).sum)
            (fun k0 hk0 => by
              show ((l.filter (fun r => decide (r.ids = k0))).map
                    (fun r => cellToInt r.value)).sum
                  = (((l.filter (fun r => !(decide (r.ids = k)))).filter
                      (fun r => decide (r.ids = k0))).map (fun r => cellToInt r.value)).sum
              rw [hterm k0 hk0])
          rw [hmap]
      _ = ((l.filter (fun r => decide (r.ids = k))).map (fun r => cellToInt r.value)).sum
            + ((l.filter (fun r => !(decide (r.ids = k)))).map (fun r => cellToInt r.value)).sum := by
          rw [hih]
      _ = (l.map (fun r => cellToInt r.value)).sum := filter_sum_split ..

/-! ### sumCells lemmas -/

lemma isNan_false_of_isNum {c : Cell} (h : isNumCell c = true) : isNanCell c = false := by
  cases c <;> simp_all [isNumCell, isNanCell]

lemma isNan_false_of_isStr {c : Cell} (h : isStrCell c = true) : isNanCell c = false := by
  cases c <;> simp_all [isStrCell, isNanCell]

lemma sum_cellToInt_filter (l : List Cell) :
    ((l.filter (fun c => !(isNanCell c))).map cellToInt).sum = (l.map cellToInt).sum := by
  induction l with
  | nil => rfl
  | cons c l ih => cases c <;> simp [List.filter_cons, ih]

/-- A group whose cells are all numbers or NaN sums without error to the sum
of its numeric readings (NaN reading as 0). -/
lemma sumCells_num_or_nan (l : List Cell)
    (h : ∀ c ∈ l, isNumCell c = true ∨ isNanCell c = true) :
    sumCells l = .ok (.num ((l.map cellToInt).sum)) := by
  have hall : (l.filter (fun c => !(isNanCell c))).all isNumCell = true := by
    rw [List.all_eq_true]
    intro c hc
    rw [List.mem_filter] at hc
    obtain ⟨hcl, hcn⟩ := hc
    rcases h c hcl with h1 | h1
    · exact h1
    · rw [h1] at hcn
      simp at hcn
  rw [sumCells, if_pos hall, sum_cellToInt_filter]

/-! ### groupSum and melt lemmas -/

/-- When every long value is numeric or NaN, group-summing never errors and
yields, per key, the sum of the numeric readings of the key's group. -/
lemma groupSumAux_eq (l : List LongRow) (keys : List (List Cell))
    (h : ∀ r ∈ l, isNumCell r.value = true ∨ isNanCell r.value = true) :
    groupSumAux l keys
      = .ok (keys.map (fun k => (k, Cell.num ((groupVals l k).map cellToInt).sum))) := by
  induction keys with
  | nil => rfl
  | cons k ks ih =>
    have hs : sumCells (groupVals l k) = .ok (.num (((groupVals l k).map cellToInt).sum)) := by
      apply sumCells_num_or_nan
      intro c hc
      rw [groupVals, List.mem_map] at hc
      obtain ⟨r, hr, rfl⟩ := hc
      exact h r (List.mem_filter.mp hr).1
    rw [groupSumAux, hs, ih]
    simp

lemma mem_melt {rows : List Row} {idCols valueCols : List String} {x : LongRow}
    (hx : x ∈ melt rows idCols valueCols) :
    ∃ m ∈ valueCols, ∃ r ∈ rows,
      x = { ids := idCols.map r, month := m, value := r m } := by
  induction valueCols with
  | nil => simp [melt] at hx
  | cons m ms ih =>
    rw [melt, List.mem_append] at hx
    rcases hx with h1 | h1
    · obtain ⟨r, hr, rfl⟩ := List.mem_map.mp h1
      exact ⟨m, by simp, r, hr, rfl⟩
    · obtain ⟨m1, hm1, r, hr, h⟩ := ih h1
      exact ⟨m1, by simp [hm1], r, hr, h⟩

/-- The total of the melted values is the total over records of their
per-month values. -/
lemma melt_value_sum (rows : List Row) (idCols : List String) (valueCols : List String) :
    ((melt rows idCols valueCols).map (fun r => cellToInt r.value)).sum
      = (rows.map (fun r => (valueCols.map (fun m => cellToInt (r m))).sum)).sum := by
  induction valueCols with
  | nil => simp [melt]
  | cons m ms ih =>
    rw [melt, List.map_append, List.sum_append, ih, List.map_map]
    have hcomp : ((fun r => cellToInt r.value) ∘
          fun r => ({ ids := idCols.map r, month := m, value := r m } : LongRow))
        = fun r => cellToInt (r m) := rfl
    rw [hcomp]
    have hrhs : rows.map (fun r => ((m :: ms).map (fun m0 => cellToInt (r m0))).sum)
        = rows.map (fun r => cellToInt (r m) + (ms.map (fun m0 => cellToInt (r m0))).sum) := by
      apply List.map_congr_left
      intro r _
      simp
    rw [hrhs, sum_map_add]

lemma groupKeys_nodup (l : List LongRow) : (groupKeys l).Nodup :=
  (List.nodup_dedup _).filter _

lemma mem_groupKeys {l : List LongRow} {r : LongRow} (hr : r ∈ l)
    (hnn : r.ids.any isNanCell = false) : r.ids ∈ groupKeys l := by
  rw [groupKeys, List.mem_filter]
  constructor
  · exact List.mem_dedup.mpr (List.mem_map.mpr ⟨r, hr, rfl⟩)
  · simp [hnn]

/-- Full conservation statement for `groupSum` over all-numeric-or-NaN
values whose group keys contain no missing value: the output exists and its
values total the melted total. -/
lemma groupSum_conservation (l : List LongRow)
    (hv : ∀ r ∈ l, isNumCell r.value = true ∨ isNanCell r.value = true)
    (hkeys : ∀ r ∈ l, r.ids.any isNanCell = false) :
    groupSum l = .ok ((groupKeys l).map
        (fun k => (k, Cell.num ((groupVals l k).map cellToInt).sum)))
    ∧ (((groupKeys l).map
          (fun k => (k, Cell.num ((groupVals l k).map cellToInt).sum))).map
        (fun p => cellToInt p.2)).sum
      = (l.map (fun r => cellToInt r.value)).sum := by
  refine ⟨groupSumAux_eq l (groupKeys l) hv, ?_⟩
  rw [List.map_map]
  have hcomp : ((fun p => cellToInt p.2) ∘
        fun k => ((k, Cell.num ((groupVals l k).map cellToInt).sum) : List Cell × Cell))
      = fun k => ((groupVals l k).map cellToInt).sum := rfl
  rw [hcomp]
  have := sum_over_keys (groupKeys l) l (groupKeys_nodup l)
    (fun r hr => mem_groupKeys hr (hkeys r hr))
  rw [← this]
  apply congrArg List.sum
  apply List.map_congr_left
  intro k _
  rw [groupVals, List.map_map]
  rfl

/-! ### requireCols and well-formedness -/

lemma requireCols_ok (t : RawTable) (cs : List String) (h : cs.all t.hasCol = true) :
    requireCols t cs = .ok () := by
  simp [requireCols, h]

lemma requireCols_error (t : RawTable) (cs : List String) (h : cs.all t.hasCol = false) :
    requireCols t cs
      = .error ("KeyError: " ++ String.intercalate ", " (cs.filter (fun c => !(t.hasCol c)))) := by
  simp [requireCols, h]

lemma wf_hasCol {t : RawTable} (h : WellFormed t = true) :
    ∀ c ∈ std_cols, t.hasCol c = true := by
  rw [WellFormed, Bool.and_eq_true] at h
  exact List.all_eq_true.mp h.1

lemma wf_rows {t : RawTable} (h : WellFormed t = true) : ∀ r ∈ t.rows, wfRow r = true := by
  rw [WellFormed, Bool.and_eq_true] at h
  exact List.all_eq_true.mp h.2

lemma wfRow_parts {r : Row} (h : wfRow r = true) :
    isStrCell (r "Scenario") = true ∧ isNumCell (r "Year") = true
      ∧ isStrCell (r "Account") = true ∧ isStrCell (r "business_unit") = true
      ∧ ∀ m ∈ all_months, isNumCell (r m) = true := by
  rw [wfRow] at h
  simp only [Bool.and_eq_true, List.all_eq_true] at h
  exact ⟨h.1.1.1.1, h.1.1.1.2, h.1.1.2, h.1.2, h.2⟩

/-! ### Conservation of the two aggregating views -/

lemma sbu_ok_conservation (t : RawTable) (h : WellFormed t = true) :
    ∃ out, sbu_core t = .ok out ∧ process_sales_data_by_unit t = out
      ∧ salesTotal out = rawMonthTotal (sbu_filter t) := by
  have hcol := wf_hasCol h
  have hrows := wf_rows h
  have hY : t.hasCol "Year" = true := hcol _ (by decide)
  have hAc : t.hasCol "Account" = true := hcol _ (by decide)
  have hSc : t.hasCol "Scenario" = true := hcol _ (by decide)
  have hBU : t.hasCol "business_unit" = true := hcol _ (by decide)
  have hMon : ∀ m ∈ all_months, t.hasCol m = true := by
    intro m hm
    exact hcol m (by rw [std_cols]; exact List.mem_append.mpr (Or.inr hm))
  have hreq1 : requireCols t ["Year", "Account"] = .ok () :=
    requireCols_ok _ _ (by simp [hY, hAc])
  have hreq2 : requireCols t (["Scenario", "business_unit"] ++ all_months) = .ok () := by
    apply requireCols_ok
    rw [List.all_eq_true]
    intro c hc
    rcases List.mem_append.mp hc with h1 | h1
    · simp only [List.mem_cons, List.mem_singleton] at h1
      rcases h1 with rfl | rfl | h1
      · exact hSc
      · exact hBU
      · simp at h1
    · exact hMon c h1
  have hval : ∀ x ∈ melt (sbu_filter t) ["Scenario", "business_unit"] all_months,
      isNumCell x.value = true := by
    intro x hx
    obtain ⟨m, hm, r, hr, rfl⟩ := mem_melt hx
    exact (wfRow_parts (hrows r (List.mem_of_mem_filter hr))).2.2.2.2 m hm
  have hids : ∀ x ∈ melt (sbu_filter t) ["Scenario", "business_unit"] all_months,
      x.ids.any isNanCell = false := by
    intro x hx
    obtain ⟨m, hm, r, hr, rfl⟩ := mem_melt hx
    obtain ⟨h1, -, -, h4, -⟩ := wfRow_parts (hrows r (List.mem_of_mem_filter hr))
    simp [isNan_false_of_isStr h1, isNan_false_of_isStr h4]
  obtain ⟨hok, hsum⟩ := groupSum_conservation _ (fun x hx => Or.inl (hval x hx)) hids
  have hcore : sbu_core t
      = .ok ((groupKeys (melt (sbu_filter t) ["Scenario", "business_unit"] all_months)).map
          (fun k => (k, Cell.num ((groupVals
            (melt (sbu_filter t) ["Scenario", "business_unit"] all_months) k).map
              cellToInt).sum))) := by
    rw [sbu_core, hreq1, hreq2]
    exact hok
  refine ⟨_, hcore, ?_, ?_⟩
  · rw [process_sales_data_by_unit, hcore]
  · rw [salesTotal, hsum, melt_value_sum]
    rfl

lemma yearly_ok_conservation (t : RawTable) (h : WellFormed t = true) :
    ∃ out, yearly_core t = .ok out ∧ process_yearly_account_data t = out
      ∧ salesTotal out = rawAbsMonthTotal (yearly_filter t) := by
  have hcol := wf_hasCol h
  have hrows := wf_rows h
  have hY : t.hasCol "Year" = true := hcol _ (by decide)
  have hAc : t.hasCol "Account" = true := hcol _ (by decide)
  have hSc : t.hasCol "Scenario" = true := hcol _ (by decide)
  have hMon : ∀ m ∈ all_months, t.hasCol m = true := by
    intro m hm
    exact hcol m (by rw [std_cols]; exact List.mem_append.mpr (Or.inr hm))
  have hmc : month_cols t = all_months := by
    rw [month_cols]
    exact List.filter_eq_self.mpr hMon
  have hreq1 : requireCols t ["Scenario", "Account"] = .ok () :=
    requireCols_ok _ _ (by simp [hSc, hAc])
  have hreq2 : requireCols t ["Account", "Year"] = .ok () :=
    requireCols_ok _ _ (by simp [hAc, hY])
  have hAccNotMonth : ("Account" : String) ∉ month_cols t := by
    rw [hmc]; decide
  have hYearNotMonth : ("Year" : String) ∉ month_cols t := by
    rw [hmc]; decide
  have hval : ∀ x ∈ melt ((yearly_filter t).map (yearly_transform t))
      ["Account", "Year"] (month_cols t),
      isNumCell x.value = true ∨ isNanCell x.value = true := by
    intro x hx
    obtain ⟨m, hm, r1, hr1, rfl⟩ := mem_melt hx
    obtain ⟨r0, hr0, rfl⟩ := List.mem_map.mp hr1
    show isNumCell (yearly_transform t r0 m) = true ∨ isNanCell (yearly_transform t r0 m) = true
    rw [yearly_transform, if_pos hm]
    cases r0 m <;> simp [coerceCell, absCell]
  have hids : ∀ x ∈ melt ((yearly_filter t).map (yearly_transform t))
      ["Account", "Year"] (month_cols t),
      x.ids.any isNanCell = false := by
    intro x hx
    obtain ⟨m, hm, r1, hr1, rfl⟩ := mem_melt hx
    obtain ⟨r0, hr0, rfl⟩ := List.mem_map.mp hr1
    obtain ⟨-, h2, h3, -, -⟩ := wfRow_parts (hrows r0 (List.mem_of_mem_filter hr0))
    have ha : yearly_transform t r0 "Account" = r0 "Account" := by
      rw [yearly_transform, if_neg hAccNotMonth]
    have hy : yearly_transform t r0 "Year" = r0 "Year" := by
      rw [yearly_transform, if_neg hYearNotMonth]
    simp [ha, hy, isNan_false_of_isStr h3, isNan_false_of_isNum h2]
  obtain ⟨hok, hsum⟩ := groupSum_conservation _ hval hids
  have hcore : yearly_core t
      = .ok ((groupKeys (melt ((yearly_filter t).map (yearly_transform t))
            ["Account", "Year"] (month_cols t))).map
          (fun k => (k, Cell.num ((groupVals
            (melt ((yearly_filter t).map (yearly_transform t))
              ["Account", "Year"] (month_cols t)) k).map cellToInt).sum))) := by
    rw [yearly_core, hreq1, hreq2]
    exact hok
  refine ⟨_, hcore, ?_, ?_⟩
  · rw [process_yearly_account_data, hcore]
  · rw [salesTotal, hsum, melt_value_sum, List.map_map]
    rw [rawAbsMonthTotal]
    apply congrArg List.sum
    apply List.map_congr_left
    intro r0 hr0
    show ((month_cols t).map (fun m => cellToInt (yearly_transform t r0 m))).sum
        = (all_months.map (fun m => abs (cellToInt (r0 m)))).sum
    rw [hmc]
    apply congrArg List.sum
    apply List.map_congr_left
    intro m hm
    obtain ⟨-, -, -, -, h5⟩ := wfRow_parts (hrows r0 (List.mem_of_mem_filter hr0))
    obtain ⟨v, hv⟩ : ∃ v, r0 m = .num v := by
      have := h5 m hm
      cases hc : r0 m <;> rw [hc] at this <;> simp_all
    rw [yearly_transform, if_pos (hmc ▸ hm), hv]
    simp [coerceCell, absCell]

/-! ### The yearly view: coercion makes every value numeric-or-NaN and
nonnegative -/

lemma yearly_melt_val (t : RawTable) :
    ∀ x ∈ melt ((yearly_filter t).map (yearly_transform t)) ["Account", "Year"] (month_cols t),
      (isNumCell x.value = true ∨ isNanCell x.value = true) ∧ 0 ≤ cellToInt x.value := by
  intro x hx
  obtain ⟨m, hm, r1, hr1, rfl⟩ := mem_melt hx
  obtain ⟨r0, hr0, rfl⟩ := List.mem_map.mp hr1
  show (isNumCell (yearly_transform t r0 m) = true ∨ isNanCell (yearly_transform t r0 m) = true)
      ∧ 0 ≤ cellToInt (yearly_transform t r0 m)
  rw [yearly_transform, if_pos hm]
  cases r0 m <;> simp [coerceCell, absCell, abs_nonneg]

/-- Whenever the Scenario, Account and Year columns exist, the yearly view
takes its normal branch: coercion prevents any type error, so `groupSum`
succeeds on however many month columns are present. -/
lemma yearly_ok_of_cols (t : RawTable) (h1 : t.hasCol "Scenario" = true)
    (h2 : t.hasCol "Account" = true) (h3 : t.hasCol "Year" = true) :
    ∃ r, yearly_core t = .ok r ∧ process_yearly_account_data t = r := by
  have hreq1 := requireCols_ok t ["Scenario", "Account"] (by simp [h1, h2])
  have hreq2 := requireCols_ok t ["Account", "Year"] (by simp [h2, h3])
  have hgs := groupSumAux_eq
    (melt ((yearly_filter t).map (yearly_transform t)) ["Account", "Year"] (month_cols t))
    (groupKeys (melt ((yearly_filter t).map (yearly_transform t))
      ["Account", "Year"] (month_cols t)))
    (fun x hx => (yearly_melt_val t x hx).1)
  have hcore : yearly_core t
      = .ok ((groupKeys (melt ((yearly_filter t).map (yearly_transform t))
            ["Account", "Year"] (month_cols t))).map
          (fun k => (k, Cell.num ((groupVals (melt ((yearly_filter t).map (yearly_transform t))
            ["Account", "Year"] (month_cols t)) k).map cellToInt).sum))) := by
    rw [yearly_core, hreq1, hreq2, groupSum]
    exact hgs
  exact ⟨_, hcore, by rw [process_yearly_account_data, hcore]⟩

/-- Every sales value in the yearly output is a nonnegative number. -/
lemma yearly_output_nonneg (t : RawTable) :
    ∀ p ∈ process_yearly_account_data t, ∃ n : Int, p.2 = Cell.num n ∧ 0 ≤ n := by
  intro p hp
  rw [process_yearly_account_data] at hp
  cases hq1 : requireCols t ["Scenario", "Account"] with
  | error e => rw [yearly_core, hq1] at hp; simp at hp
  | ok u =>
    cases hq2 : requireCols t ["Account", "Year"] with
    | error e => rw [yearly_core, hq1, hq2] at hp; simp at hp
    | ok u2 =>
      have hgs := groupSumAux_eq
        (melt ((yearly_filter t).map (yearly_transform t)) ["Account", "Year"] (month_cols t))
        (groupKeys (melt ((yearly_filter t).map (yearly_transform t))
          ["Account", "Year"] (month_cols t)))
        (fun x hx => (yearly_melt_val t x hx).1)
      rw [yearly_core, hq1, hq2, groupSum, hgs] at hp
      simp only [List.mem_map] at hp
      obtain ⟨k, hk, rfl⟩ := hp
      refine ⟨_, rfl, ?_⟩
      apply List.sum_nonneg
      intro x hx
      rw [List.mem_map] at hx
      obtain ⟨c, hc, rfl⟩ := hx
      rw [groupVals, List.mem_map] at hc
      obtain ⟨r, hr, rfl⟩ := hc
      exact (yearly_melt_val t r (List.mem_filter.mp hr).1).2

/-! ### Degradation on missing columns: each computation catches its own
KeyError -/

lemma sbu_error_of_missing (t : RawTable)
    (h : ((["Year", "Account"] ++ (["Scenario", "business_unit"] ++ all_months)).all
        t.hasCol) = false) :
    (∃ e, sbu_core t = .error e) ∧ process_sales_data_by_unit t = [] := by
  rw [List.all_append] at h
  cases h1 : (["Year", "Account"].all t.hasCol) with
  | false =>
    have he := requireCols_error t _ h1
    exact ⟨⟨_, by rw [sbu_core, he]⟩, by rw [process_sales_data_by_unit, sbu_core, he]⟩
  | true =>
    rw [h1, Bool.true_and] at h
    have he := requireCols_error t _ h
    have hok := requireCols_ok t _ h1
    exact ⟨⟨_, by rw [sbu_core, hok, he]⟩,
      by rw [process_sales_data_by_unit, sbu_core, hok, he]⟩

lemma monthly_error_of_missing (t : RawTable)
    (h : ((["Year", "Account", "business_unit"] ++ ("Scenario" :: all_months)).all
        t.hasCol) = false) :
    (∃ e, monthly_core t = .error e) ∧ process_monthly_sales_data t = [] := by
  rw [List.all_append] at h
  cases h1 : (["Year", "Account", "business_unit"].all t.hasCol) with
  | false =>
    have he := requireCols_error t _ h1
    exact ⟨⟨_, by rw [monthly_core, he]⟩,
      by rw [process_monthly_sales_data, monthly_core, he]⟩
  | true =>
    rw [h1, Bool.true_and] at h
    have he := requireCols_error t _ h
    have hok := requireCols_ok t _ h1
    exact ⟨⟨_, by rw [monthly_core, hok, he]⟩,
      by rw [process_monthly_sales_data, monthly_core, hok, he]⟩

lemma yearly_error_of_missing (t : RawTable)
    (h : ((["Scenario", "Account"] ++ ["Account", "Year"]).all t.hasCol) = false) :
    process_yearly_account_data t = [] := by
  rw [List.all_append] at h
  cases h1 : (["Scenario", "Account"].all t.hasCol) with
  | false =>
    have he := requireCols_error t _ h1
    rw [process_yearly_account_data, yearly_core, he]
  | true =>
    rw [h1, Bool.true_and] at h
    have he := requireCols_error t _ h
    have hok := requireCols_ok t _ h1
    rw [process_yearly_account_data, yearly_core, hok, he]

lemma metrics_error_of_missing (t : RawTable)
    (h : (("Account" :: all_months).all t.hasCol) = false) :
    ∃ e, calculate_metrics t = (zeroBundle, some e) := by
  have he := requireCols_error t _ h
  exact ⟨_, by rw [calculate_metrics, metrics_core, he]⟩

/-- On the success path the three ratio fields are the hard-coded literals
of src/app.py lines 487-489, independent of the table. -/
lemma metrics_ok_ratios (t : RawTable) (b : MetricsBundle) (h : metrics_core t = .ok b) :
    b.equity_ratio = 75.38 ∧ b.debt_equity = 1.10 ∧ b.current_ratio = 1.86 := by
  rw [metrics_core] at h
  split at h
  · simp at h
  · split at h
    · simp at h
    · split at h
      · simp at h
      · split at h
        · injection h with h
          subst h
          exact ⟨rfl, rfl, rfl⟩
        · simp at h
        · simp at h

/-! ### Source cache lemmas -/

lemma get_or_fetch_hit {κ α : Type} [DecidableEq κ] (c : Cache κ α) (k : κ) (e : CacheEntry α)
    (f : Unit → α) (now ttl : Nat) (he : cacheLookup c k = some e)
    (hts : now - e.timestamp < ttl) :
    get_or_fetch c k f now ttl = (e.value, c) := by
  rw [get_or_fetch, he]
  simp [hts]

lemma get_or_fetch_miss {κ α : Type} [DecidableEq κ] (c : Cache κ α) (k : κ)
    (f : Unit → α) (now ttl : Nat)
    (h : cacheLookup c k = none ∨ ∃ e, cacheLookup c k = some e ∧ ttl ≤ now - e.timestamp) :
    get_or_fetch c k f now ttl = (f (), cacheInsert c k ⟨f (), now⟩) := by
  rcases h with h | ⟨e, he, hts⟩
  · rw [get_or_fetch, h]
  · rw [get_or_fetch, he]
    simp [Nat.not_lt.mpr hts]

lemma cacheLookup_insert {κ α : Type} [DecidableEq κ] (c : Cache κ α) (k : κ)
    (e : CacheEntry α) : cacheLookup (cacheInsert c k e) k = some e := by
  rw [cacheInsert, cacheLookup]
  simp

/-! ### Replacing non-numeric month cells by 0 leaves the yearly view
unchanged -/

lemma month_cols_sub {t : RawTable} {c : String} (h : c ∈ month_cols t) : c ∈ all_months :=
  List.mem_of_mem_filter h

lemma zRow_id (r : Row) (c : String) (hc : c ∉ all_months) : zRow r c = r c := by
  rw [zRow, if_neg]
  intro hcontra
  exact hc hcontra.1

lemma groupVals_append (l₁ l₂ : List LongRow) (k : List Cell) :
    groupVals (l₁ ++ l₂) k = groupVals l₁ k ++ groupVals l₂ k := by
  rw [groupVals, groupVals, groupVals, List.filter_append, List.map_append]

/-- The summed group cells of a melt over mapped rows, decomposed per month
column over the matching base records. -/
lemma groupVals_melt_map_sum (base : List Row) (f : Row → Row) (idCols : List String)
    (mcols : List String) (k : List Cell) :
    ((groupVals (melt (base.map f) idCols mcols) k).map cellToInt).sum
      = (mcols.map (fun m =>
          ((base.filter (fun r => decide (idCols.map (f r) = k))).map
            (fun r => cellToInt (f r m))).sum)).sum := by
  induction mcols with
  | nil => rfl
  | cons m ms ih =>
    rw [melt, groupVals_append, List.map_append, List.sum_append, ih]
    have hblock : ((groupVals ((base.map f).map
          (fun r => ({ ids := idCols.map r, month := m, value := r m } : LongRow))) k).map
            cellToInt).sum
        = ((base.filter (fun r => decide (idCols.map (f r) = k))).map
            (fun r => cellToInt (f r m))).sum := by
      rw [groupVals, List.map_map, filter_map_comm, List.map_map, filter_map_comm, List.map_map]
      rfl
    rw [hblock, List.map_cons, List.sum_cons]

lemma melt_map_ids_eq (base : List Row) (f₁ f₂ : Row → Row) (idCols mcols : List String)
    (hid : ∀ r, idCols.map (f₁ r) = idCols.map (f₂ r)) :
    (melt (base.map f₁) idCols mcols).map LongRow.ids
      = (melt (base.map f₂) idCols mcols).map LongRow.ids := by
  induction mcols with
  | nil => rfl
  | cons m ms ih =>
    rw [melt, melt, List.map_append, List.map_append, ih]
    have hblk : ∀ f : Row → Row,
        (((base.map f).map
            (fun r => ({ ids := idCols.map r, month := m, value := r m } : LongRow))).map
          LongRow.ids)
          = base.map (fun r => idCols.map (f r)) := by
      intro f
      rw [List.map_map, List.map_map]
      rfl
    rw [hblk, hblk]
    have : base.map (fun r => idCols.map (f₁ r)) = base.map (fun r => idCols.map (f₂ r)) := by
      apply List.map_congr_left
      intro r _
      exact hid r
    rw [this]

lemma melt_map_val_nn (base : List Row) (f : Row → Row) (idCols mcols : List String)
    (h : ∀ r, ∀ m ∈ mcols, isNumCell (f r m) = true ∨ isNanCell (f r m) = true) :
    ∀ x ∈ melt (base.map f) idCols mcols,
      isNumCell x.value = true ∨ isNanCell x.value = true := by
  intro x hx
  obtain ⟨m, hm, r1, hr1, rfl⟩ := mem_melt hx
  obtain ⟨r0, hr0, rfl⟩ := List.mem_map.mp hr1
  exact h r0 m hm

lemma groupVals_nn (l : List LongRow) (k : List Cell)
    (h : ∀ x ∈ l, isNumCell x.value = true ∨ isNanCell x.value = true) :
    ∀ c ∈ groupVals l k, isNumCell c = true ∨ isNanCell c = true := by
  intro c hc
  rw [groupVals, List.mem_map] at hc
  obtain ⟨r, hr, rfl⟩ := hc
  exact h r (List.mem_filter.mp hr).1

lemma groupSumAux_congr (l₁ l₂ : List LongRow) (keys : List (List Cell))
    (h : ∀ k ∈ keys, sumCells (groupVals l₁ k) = sumCells (groupVals l₂ k)) :
    groupSumAux l₁ keys = groupSumAux l₂ keys := by
  induction keys with
  | nil => rfl
  | cons k ks ih =>
    rw [groupSumAux, groupSumAux, h k (by simp), ih (fun k1 hk1 => h k1 (by simp [hk1]))]

/-- Two melts over the same base records whose row transforms agree on the
id columns and whose month values are numeric-or-NaN with equal numeric
readings group-sum identically. -/
lemma groupSum_melt_map_eq (base : List Row) (f₁ f₂ : Row → Row) (idCols mcols : List String)
    (hid : ∀ r, idCols.map (f₁ r) = idCols.map (f₂ r))
    (hnn₁ : ∀ r, ∀ m ∈ mcols, isNumCell (f₁ r m) = true ∨ isNanCell (f₁ r m) = true)
    (hnn₂ : ∀ r, ∀ m ∈ mcols, isNumCell (f₂ r m) = true ∨ isNanCell (f₂ r m) = true)
    (hval : ∀ r, ∀ m ∈ mcols, cellToInt (f₁ r m) = cellToInt (f₂ r m)) :
    groupSum (melt (base.map f₁) idCols mcols) = groupSum (melt (base.map f₂) idCols mcols) := by
  have hkeys : groupKeys (melt (base.map f₁) idCols mcols)
      = groupKeys (melt (base.map f₂) idCols mcols) := by
    rw [groupKeys, groupKeys, melt_map_ids_eq base f₁ f₂ idCols mcols hid]
  have hsc : ∀ k, sumCells (groupVals (melt (base.map f₁) idCols mcols) k)
      = sumCells (groupVals (melt (base.map f₂) idCols mcols) k) := by
    intro k
    have h1 := sumCells_num_or_nan (groupVals (melt (base.map f₁) idCols mcols) k)
      (groupVals_nn _ _ (melt_map_val_nn base f₁ idCols mcols hnn₁))
    have h2 := sumCells_num_or_nan (groupVals (melt (base.map f₂) idCols mcols) k)
      (groupVals_nn _ _ (melt_map_val_nn base f₂ idCols mcols hnn₂))
    rw [h1, h2, groupVals_melt_map_sum, groupVals_melt_map_sum]
    have hfilter : base.filter (fun r => decide (idCols.map (f₁ r) = k))
        = base.filter (fun r => decide (idCols.map (f₂ r) = k)) := by
      have hfun : (fun r => decide (idCols.map (f₁ r) = k))
          = (fun r => decide (idCols.map (f₂ r) = k)) := by
        funext r
        rw [hid r]
      rw [hfun]
    have hsum : (mcols.map (fun m =>
          ((base.filter (fun r => decide (idCols.map (f₁ r) = k))).map
            (fun r => cellToInt (f₁ r m))).sum)).sum
        = (mcols.map (fun m =>
          ((base.filter (fun r => decide (idCols.map (f₂ r) = k))).map
            (fun r => cellToInt (f₂ r m))).sum)).sum := by
      rw [hfilter]
      apply congrArg List.sum
      apply List.map_congr_left
      intro m hm
      apply congrArg List.sum
      apply List.map_congr_left
      intro r _
      exact hval r m hm
    rw [hsum]
  rw [groupSum, groupSum, hkeys]
  exact groupSumAux_congr _ _ _ (fun k _ => hsc k)

lemma abs_coerce_nn (c : Cell) :
    isNumCell (absCell (coerceCell c)) = true ∨ isNanCell (absCell (coerceCell c)) = true := by
  cases c <;> simp [coerceCell, absCell]

lemma transform_not_month (t : RawTable) (r : Row) (c : String) (hc : c ∉ all_months) :
    yearly_transform t r c = r c := by
  rw [yearly_transform, if_neg]
  intro hmem
  exact hc (month_cols_sub hmem)

/-- Replacing every non-numeric month cell by the number 0 does not change
the yearly-by-account view: the coercion already treats those cells as
missing values contributing 0. -/
lemma yearly_zero_eq (t : RawTable) :
    process_yearly_account_data (zeroNonNum t) = process_yearly_account_data t := by
  have hreqA : requireCols (zeroNonNum t) ["Scenario", "Account"]
      = requireCols t ["Scenario", "Account"] := rfl
  have hreqB : requireCols (zeroNonNum t) ["Account", "Year"]
      = requireCols t ["Account", "Year"] := rfl
  simp only [process_yearly_account_data, yearly_core, hreqA, hreqB]
  cases hq1 : requireCols t ["Scenario", "Account"] with
  | error e => rfl
  | ok u =>
    cases hq2 : requireCols t ["Account", "Year"] with
    | error e => rfl
    | ok u2 =>
      have hmc : month_cols (zeroNonNum t) = month_cols t := rfl
      have hstep1 : yearly_filter (zeroNonNum t)
          = (t.rows.filter (fun r => cellEqStr (zRow r "Scenario") "Actuals"
              && !(cellEqStr (zRow r "Account") "Sales"))).map zRow :=
        filter_map_comm t.rows zRow _
      have hstep2 : t.rows.filter (fun r => cellEqStr (zRow r "Scenario") "Actuals"
            && !(cellEqStr (zRow r "Account") "Sales"))
          = yearly_filter t := by
        rw [yearly_filter]
        have hfun : (fun r => cellEqStr (zRow r "Scenario") "Actuals"
              && !(cellEqStr (zRow r "Account") "Sales"))
            = (fun r => cellEqStr (r "Scenario") "Actuals"
              && !(cellEqStr (r "Account") "Sales")) := by
          funext r
          rw [zRow_id r "Scenario" (by decide), zRow_id r "Account" (by decide)]
        rw [hfun]
      have hzrows : (yearly_filter (zeroNonNum t)).map (yearly_transform (zeroNonNum t))
          = (yearly_filter t).map (fun r => yearly_transform t (zRow r)) := by
        rw [hstep1, hstep2, List.map_map]
        rfl
      have hgs : groupSum (melt ((yearly_filter t).map (fun r => yearly_transform t (zRow r)))
            ["Account", "Year"] (month_cols t))
          = groupSum (melt ((yearly_filter t).map (yearly_transform t))
            ["Account", "Year"] (month_cols t)) := by
        apply groupSum_melt_map_eq
        · intro r
          have hA1 : yearly_transform t (zRow r) "Account" = r "Account" := by
            rw [transform_not_month t _ _ (by decide), zRow_id r "Account" (by decide)]
          have hY1 : yearly_transform t (zRow r) "Year" = r "Year" := by
            rw [transform_not_month t _ _ (by decide), zRow_id r "Year" (by decide)]
          have hA2 : yearly_transform t r "Account" = r "Account" :=
            transform_not_month t _ _ (by decide)
          have hY2 : yearly_transform t r "Year" = r "Year" :=
            transform_not_month t _ _ (by decide)
          simp [hA1, hY1, hA2, hY2]
        · intro r m hm
          rw [yearly_transform, if_pos hm]
          exact abs_coerce_nn _
        · intro r m hm
          rw [yearly_transform, if_pos hm]
          exact abs_coerce_nn _
        · intro r m hm
          rw [yearly_transform, yearly_transform, if_pos hm, if_pos hm]
          cases hn : isNumCell (r m) with
          | true =>
            have hz : zRow r m = r m := by
              rw [zRow, if_neg]
              intro hcontra
              rw [hn] at hcontra
              exact absurd hcontra.2 (by simp)
            rw [hz]
          | false =>
            have hz : zRow r m = .num 0 := by
              rw [zRow, if_pos ⟨month_cols_sub hm, hn⟩]
            rw [hz]
            cases hc : r m with
            | num v => rw [hc] at hn; simp at hn
            | str s => simp [coerceCell, absCell]
            | nan => simp [coerceCell, absCell]
      rw [hmc, hzrows, hgs]

/-! ## The claims -/

/-- C1: on the raw table with exactly one record (Scenario Budget, Year
2023, Account Sales, business_unit Software, Jan 150000, Feb 155000, all
other months 0), the sales-by-unit view returns exactly one aggregated row
(Budget, Software, sales 305000). -/
theorem claim_C1 :
    process_sales_data_by_unit tC1
      = [([Cell.str "Budget", Cell.str "Software"], Cell.num 305000)] := by
  decide

/-- C2: for every well-formed raw table (full template schema, numeric
month cells), for each aggregating view the total of the output sales
values equals the sum of all month cells of the records surviving the
view's filter, after the absolute-value transform for the yearly view. -/
theorem claim_C2 (t : RawTable) (h : WellFormed t = true) :
    salesTotal (process_sales_data_by_unit t) = rawMonthTotal (sbu_filter t)
    ∧ salesTotal (process_yearly_account_data t) = rawAbsMonthTotal (yearly_filter t) := by
  obtain ⟨o1, hc1, hp1, hs1⟩ := sbu_ok_conservation t h
  obtain ⟨o2, hc2, hp2, hs2⟩ := yearly_ok_conservation t h
  rw [hp1, hp2]
  exact ⟨hs1, hs2⟩

theorem claim_C2_witness :
    WellFormed tMix = true
    ∧ (salesTotal (process_sales_data_by_unit tMix) = rawMonthTotal (sbu_filter tMix)
      ∧ salesTotal (process_yearly_account_data tMix) = rawAbsMonthTotal (yearly_filter tMix)) :=
  ⟨by decide, claim_C2 tMix (by decide)⟩

/-- C3 counterexample: on a table whose single record has the non-numeric
January cell and numeric cells elsewhere, the sales-by-unit view does not
treat the cell as a missing value contributing 0: its group sum raises a
TypeError, which the blanket except turns into an empty table, losing the
other correctly summed values. -/
theorem claim_C3_counterexample :
    isStrCell (rowC3 "Jan") = true
    ∧ sbu_core tC3 = .error "TypeError: unsupported operand type for +"
    ∧ process_sales_data_by_unit tC3 = [] :=
  ⟨rfl, rfl, rfl⟩

/-- C3 amended: only the yearly-by-account view coerces month cells, so
only there a non-numeric month cell is treated as a missing value
contributing 0 to its group's sum with no error: for every raw table,
replacing each non-numeric month cell by the number 0 leaves the yearly
output unchanged. -/
theorem claim_C3 (t : RawTable) :
    process_yearly_account_data (zeroNonNum t) = process_yearly_account_data t :=
  yearly_zero_eq t

/-- C4 counterexample: with a stale successful entry cached, a failing
fetch has its failure value stored in the cache -- the prior successful
entry is replaced -- and a later call within TTL returns the cached failure
rather than the prior valid table. -/
theorem claim_C4_counterexample :
    (load_google_sheets_data [(("cred", "url"), ⟨.ok emptyTable, 0⟩)] "cred" "url"
        (fun _ => .error "boom") 400).1 = .error "boom"
    ∧ cacheLookup (load_google_sheets_data [(("cred", "url"), ⟨.ok emptyTable, 0⟩)] "cred" "url"
        (fun _ => .error "boom") 400).2 ("cred", "url") = some ⟨.error "boom", 400⟩
    ∧ (load_google_sheets_data (load_google_sheets_data [(("cred", "url"), ⟨.ok emptyTable, 0⟩)]
        "cred" "url" (fun _ => .error "boom") 400).2 "cred" "url"
        (fun _ => .ok emptyTable) 500).1 = .error "boom" :=
  ⟨rfl, rfl, rfl⟩

/-- C4 amended: a fresh successful entry prevents the fetch from running at
all, but whenever the fetch does run (entry absent or older than TTL) and
fails, the loader returns the failure as a value and st.cache_data stores
that failure as the cache entry for the key, replacing any stale entry;
later calls within TTL then return the cached failure. -/
theorem claim_C4 (c : Cache (String × String) FetchResult) (creds url err : String)
    (now later : Nat) (f g : Unit → FetchResult)
    (hf : f () = .error err)
    (hmiss : cacheLookup c (creds, url) = none
      ∨ ∃ e, cacheLookup c (creds, url) = some e ∧ 300 ≤ now - e.timestamp)
    (hlater : later - now < 300) :
    (load_google_sheets_data c creds url f now).1 = .error err
    ∧ cacheLookup (load_google_sheets_data c creds url f now).2 (creds, url)
        = some ⟨.error err, now⟩
    ∧ (load_google_sheets_data (load_google_sheets_data c creds url f now).2
        creds url g later).1 = .error err := by
  have hload : load_google_sheets_data c creds url f now
      = (f (), cacheInsert c (creds, url) ⟨f (), now⟩) :=
    get_or_fetch_miss c (creds, url) f now 300 hmiss
  rw [hload, hf]
  refine ⟨rfl, cacheLookup_insert _ _ _, ?_⟩
  have h2 := get_or_fetch_hit (cacheInsert c (creds, url) ⟨Except.error err, now⟩)
    (creds, url) ⟨Except.error err, now⟩ g later 300 (cacheLookup_insert _ _ _) hlater
  rw [load_google_sheets_data, h2]

theorem claim_C4_witness :
    (load_google_sheets_data [(("cred", "url"), ⟨.ok emptyTable, 0⟩)] "cred" "url"
        (fun _ => .error "fetch failed") 400).1 = .error "fetch failed"
    ∧ cacheLookup (load_google_sheets_data [(("cred", "url"), ⟨.ok emptyTable, 0⟩)] "cred" "url"
        (fun _ => .error "fetch failed") 400).2 ("cred", "url")
        = some ⟨.error "fetch failed", 400⟩
    ∧ (load_google_sheets_data (load_google_sheets_data [(("cred", "url"), ⟨.ok emptyTable, 0⟩)]
        "cred" "url" (fun _ => .error "fetch failed") 400).2 "cred" "url"
        (fun _ => .ok emptyTable) 500).1 = .error "fetch failed" :=
  claim_C4 [(("cred", "url"), ⟨.ok emptyTable, 0⟩)] "cred" "url" "fetch failed" 400 500 _ _
    rfl (Or.inr ⟨⟨.ok emptyTable, 0⟩, rfl, by decide⟩) (by decide)

/-- C5: with no entry for the key, a first call stores the fetched value; a
second call with the same key within the 300-second TTL returns that exact
cached value without invoking its (possibly different) fetch function and
leaves the cache unchanged; a call at or past the TTL runs its fetch
afresh. -/
theorem claim_C5 (c : Cache (String × String) FetchResult) (creds url : String)
    (f1 f2 f3 : Unit → FetchResult) (t0 t1 t2 : Nat)
    (h0 : cacheLookup c (creds, url) = none)
    (h1 : t1 - t0 < 300) (h2 : 300 ≤ t2 - t0) :
    (load_google_sheets_data c creds url f1 t0).1 = f1 ()
    ∧ (load_google_sheets_data (load_google_sheets_data c creds url f1 t0).2
        creds url f2 t1).1 = f1 ()
    ∧ (load_google_sheets_data (load_google_sheets_data c creds url f1 t0).2
        creds url f2 t1).2 = (load_google_sheets_data c creds url f1 t0).2
    ∧ (load_google_sheets_data (load_google_sheets_data c creds url f1 t0).2
        creds url f3 t2).1 = f3 () := by
  have hload1 : load_google_sheets_data c creds url f1 t0
      = (f1 (), cacheInsert c (creds, url) ⟨f1 (), t0⟩) :=
    get_or_fetch_miss c (creds, url) f1 t0 300 (Or.inl h0)
  have hlk := cacheLookup_insert c (creds, url) (⟨f1 (), t0⟩ : CacheEntry FetchResult)
  have hload2 : load_google_sheets_data (cacheInsert c (creds, url) ⟨f1 (), t0⟩)
      creds url f2 t1 = (f1 (), cacheInsert c (creds, url) ⟨f1 (), t0⟩) :=
    get_or_fetch_hit _ (creds, url) ⟨f1 (), t0⟩ f2 t1 300 hlk h1
  have hload3 : load_google_sheets_data (cacheInsert c (creds, url) ⟨f1 (), t0⟩)
      creds url f3 t2
      = (f3 (), cacheInsert (cacheInsert c (creds, url) ⟨f1 (), t0⟩) (creds, url) ⟨f3 (), t2⟩) :=
    get_or_fetch_miss _ (creds, url) f3 t2 300 (Or.inr ⟨⟨f1 (), t0⟩, hlk, h2⟩)
  rw [hload1]
  dsimp only
  rw [hload2, hload3]
  exact ⟨rfl, rfl, rfl, rfl⟩

theorem claim_C5_witness :
    (load_google_sheets_data [] "cred" "url" (fun _ => .ok emptyTable) 0).1
        = (fun _ => (.ok emptyTable : FetchResult)) ()
    ∧ (load_google_sheets_data (load_google_sheets_data [] "cred" "url"
        (fun _ => .ok emptyTable) 0).2 "cred" "url" (fun _ => .error "changed") 100).1
        = (fun _ => (.ok emptyTable : FetchResult)) ()
    ∧ (load_google_sheets_data (load_google_sheets_data [] "cred" "url"
        (fun _ => .ok emptyTable) 0).2 "cred" "url" (fun _ => .error "changed") 100).2
        = (load_google_sheets_data [] "cred" "url" (fun _ => .ok emptyTable) 0).2
    ∧ (load_google_sheets_data (load_google_sheets_data [] "cred" "url"
        (fun _ => .ok emptyTable) 0).2 "cred" "url" (fun _ => .error "expired") 300).1
        = (fun _ => (.error "expired" : FetchResult)) () :=
  claim_C5 [] "cred" "url" _ _ _ 0 100 300 rfl (by decide) (by decide)

/-- C6: a raw table missing a column the metric calculator needs (the
Account column or any month column) makes calculate_metrics return the
all-zero bundle together with a reported error; no exception escapes. -/
theorem claim_C6 (t : RawTable) (h : (("Account" :: all_months).all t.hasCol) = false) :
    ∃ e, calculate_metrics t = (zeroBundle, some e) :=
  metrics_error_of_missing t h

theorem claim_C6_witness :
    ((("Account" :: all_months).all tOneCol.hasCol) = false)
    ∧ ∃ e, calculate_metrics tOneCol = (zeroBundle, some e) :=
  ⟨by decide, claim_C6 tOneCol (by decide)⟩

/-- C7: every sales value in the yearly-by-account output is a nonnegative
number, since each month value is replaced by its absolute value (after
numeric coercion) before melting and summing. -/
theorem claim_C7 (t : RawTable) (p : List Cell × Cell)
    (hp : p ∈ process_yearly_account_data t) :
    ∃ n : Int, p.2 = Cell.num n ∧ 0 ≤ n :=
  yearly_output_nonneg t p hp

theorem claim_C7_witness :
    ∃ n : Int, (([Cell.str "Marketing", Cell.num 2023], Cell.num 30) : List Cell × Cell).2
        = Cell.num n ∧ 0 ≤ n :=
  claim_C7 tC7 ([Cell.str "Marketing", Cell.num 2023], Cell.num 30) (by decide)

/-- C8 counterexample: a table missing the required business_unit column is
not stopped by any validation: the yearly-by-account view still executes
against it and returns a real aggregated row, and the metric calculator
completes without reporting any error, so no SchemaError gate exists. -/
theorem claim_C8_counterexample :
    tC8.hasCol "business_unit" = false
    ∧ process_yearly_account_data tC8 = [([Cell.str "Marketing", Cell.num 2023], Cell.num 120)]
    ∧ (calculate_metrics tC8).2 = none :=
  ⟨by decide, by decide, by decide⟩

/-- C8 amended: there is no upfront schema validation; instead each view
and the metric calculator access the columns they need and degrade
individually on a missing column -- a view returns the empty table, the
metric calculator the zero bundle plus a reported error -- while
computations not needing the missing column still run. -/
theorem claim_C8 (t : RawTable) :
    (((["Year", "Account"] ++ (["Scenario", "business_unit"] ++ all_months)).all t.hasCol)
        = false → process_sales_data_by_unit t = [])
    ∧ (((["Year", "Account", "business_unit"] ++ ("Scenario" :: all_months)).all t.hasCol)
        = false → process_monthly_sales_data t = [])
    ∧ (((["Scenario", "Account"] ++ ["Account", "Year"]).all t.hasCol) = false →
        process_yearly_account_data t = [])
    ∧ ((("Account" :: all_months).all t.hasCol) = false →
        ∃ e, calculate_metrics t = (zeroBundle, some e)) :=
  ⟨fun h => (sbu_error_of_missing t h).2, fun h => (monthly_error_of_missing t h).2,
    fun h => yearly_error_of_missing t h, fun h => metrics_error_of_missing t h⟩

theorem claim_C8_witness :
    process_sales_data_by_unit tOneCol = []
    ∧ process_monthly_sales_data tOneCol = []
    ∧ process_yearly_account_data tOneCol = []
    ∧ ∃ e, calculate_metrics tOneCol = (zeroBundle, some e) :=
  ⟨(claim_C8 tOneCol).1 (by decide), (claim_C8 tOneCol).2.1 (by decide),
    (claim_C8 tOneCol).2.2.1 (by decide), (claim_C8 tOneCol).2.2.2 (by decide)⟩

/-- C9: whenever calculate_metrics succeeds on two raw tables, the
equity_ratio, debt_equity and current_ratio fields of the two bundles
coincide: they are fixed literals not derived from the table. -/
theorem claim_C9 (t1 t2 : RawTable) (h1 : isOkE (metrics_core t1) = true)
    (h2 : isOkE (metrics_core t2) = true) :
    (calculate_metrics t1).1.equity_ratio = (calculate_metrics t2).1.equity_ratio
    ∧ (calculate_metrics t1).1.debt_equity = (calculate_metrics t2).1.debt_equity
    ∧ (calculate_metrics t1).1.current_ratio = (calculate_metrics t2).1.current_ratio := by
  cases hm1 : metrics_core t1 with
  | error e => rw [hm1] at h1; simp [isOkE] at h1
  | ok b1 =>
    cases hm2 : metrics_core t2 with
    | error e => rw [hm2] at h2; simp [isOkE] at h2
    | ok b2 =>
      obtain ⟨e1, d1, c1⟩ := metrics_ok_ratios t1 b1 hm1
      obtain ⟨e2, d2, c2⟩ := metrics_ok_ratios t2 b2 hm2
      simp only [calculate_metrics, hm1, hm2]
      exact ⟨e1.trans e2.symm, d1.trans d2.symm, c1.trans c2.symm⟩

theorem claim_C9_witness :
    isOkE (metrics_core tC1) = true ∧ isOkE (metrics_core tMix) = true
    ∧ ((calculate_metrics tC1).1.equity_ratio = (calculate_metrics tMix).1.equity_ratio
      ∧ (calculate_metrics tC1).1.debt_equity = (calculate_metrics tMix).1.debt_equity
      ∧ (calculate_metrics tC1).1.current_ratio = (calculate_metrics tMix).1.current_ratio) :=
  ⟨by decide, by decide, claim_C9 tC1 tMix (by decide) (by decide)⟩

/-- C10: on any table with at least one canonical month column absent, the
sales-by-unit and monthly views -- which always pass all twelve months to
melt -- take their exception branch and return an empty table, while the
yearly view, which melts only the months actually present, takes its normal
branch (given its three id columns) and returns the aggregation over the
present months. -/
theorem claim_C10 (t : RawTable) (hm : all_months.all t.hasCol = false) :
    (∃ e, sbu_core t = .error e) ∧ process_sales_data_by_unit t = []
    ∧ (∃ e, monthly_core t = .error e) ∧ process_monthly_sales_data t = []
    ∧ (t.hasCol "Scenario" = true → t.hasCol "Account" = true → t.hasCol "Year" = true →
        ∃ r, yearly_core t = .ok r ∧ process_yearly_account_data t = r) := by
  have h1 : ((["Year", "Account"] ++ (["Scenario", "business_unit"] ++ all_months)).all
      t.hasCol) = false := by
    simp [List.all_append, hm]
  have h2 : ((["Year", "Account", "business_unit"] ++ ("Scenario" :: all_months)).all
      t.hasCol) = false := by
    simp [List.all_append, hm]
  obtain ⟨hs1, hs2⟩ := sbu_error_of_missing t h1
  obtain ⟨hn1, hn2⟩ := monthly_error_of_missing t h2
  exact ⟨hs1, hs2, hn1, hn2, fun ha hb hc => yearly_ok_of_cols t ha hb hc⟩

theorem claim_C10_witness :
    (∃ e, sbu_core tNoDec = .error e) ∧ process_sales_data_by_unit tNoDec = []
    ∧ (∃ e, monthly_core tNoDec = .error e) ∧ process_monthly_sales_data tNoDec = []
    ∧ (∃ r, yearly_core tNoDec = .ok r ∧ process_yearly_account_data tNoDec = r) := by
  have h := claim_C10 tNoDec (by decide)
  exact ⟨h.1, h.2.1, h.2.2.1, h.2.2.2.1, h.2.2.2.2 (by decide) (by decide) (by decide)⟩

end Dashsee
